import Mathlib

/-! Wire contract of `common.h`.

A shallow embedding of the shared header of the alarm fleet: the packed
packet record `struct_message`, the enumerations `DeviceID` and `EventType`,
the table of hardware addresses, and the `#ifdef` chain that binds a build to
one identity (`MY_DEVICE_ID`, `MY_MAC`).

Machine integers are natural numbers; a `uint8_t` is a number below `256`
and a `uint32_t` a number below `2 ^ 32` (predicate `struct_message.wf`).
-/

namespace Alarm

/-! ## Packet record (common.h, lines 13-18) -/

/-- The packet record `struct_message`: `uint8_t id`, `uint8_t typ_zdarzenia`,
`uint32_t info`, `uint8_t mac[6]`, declared in this order. -/
structure struct_message where
  id : Nat
  typ_zdarzenia : Nat
  info : Nat
  mac : List Nat
  deriving DecidableEq, Repr

/-- The values a C `struct_message` can hold: the two `uint8_t` fields are
below `256`, the `uint32_t` field is below `2 ^ 32`, and `mac` is an array of
exactly six `uint8_t`. -/
def struct_message.wf (m : struct_message) : Prop :=
  m.id < 256 ∧ m.typ_zdarzenia < 256 ∧ m.info < 2 ^ 32 ∧
    m.mac.length = 6 ∧ ∀ b ∈ m.mac, b < 256

instance (m : struct_message) : Decidable m.wf := by
  unfold struct_message.wf
  infer_instance

/-- The four bytes of a `uint32_t` as the little-endian target stores them,
least significant byte first. -/
def u32_bytes (v : Nat) : List Nat :=
  [v % 256, v / 256 % 256, v / 65536 % 256, v / 16777216 % 256]

/-- The `uint32_t` stored in four bytes, least significant byte first. -/
def u32_of_bytes (b0 b1 b2 b3 : Nat) : Nat :=
  b0 + 256 * b1 + 65536 * b2 + 16777216 * b3

/-- Modelled from the spec: `Encode` of section 4.1, which is not a function
of `common.h`. It emits the object representation that the declaration of
`struct_message` fixes: `__attribute__((packed))` leaves no padding, so the
fields follow one another in declaration order with their declared widths
(1, 1, 4, 6), and `info` is written least significant byte first. -/
def Encode (m : struct_message) : List Nat :=
  [m.id, m.typ_zdarzenia] ++ u32_bytes m.info ++ m.mac

/-- The error conditions of the packet codec (spec, section 7). -/
inductive DecodeError where
  | malformed_frame
  deriving DecidableEq, Repr

/-- Modelled from the spec: `Decode` of section 4.1, which is not a function
of `common.h`. It fails with the malformed-frame condition unless the input
is exactly 12 bytes, and otherwise reads the four fields back from the
offsets of the packed layout (0, 1, 2..5, 6..11). -/
def Decode (bs : List Nat) : Except DecodeError struct_message :=
  if bs.length = 12 then
    .ok { id := bs.getD 0 0
          typ_zdarzenia := bs.getD 1 0
          info := u32_of_bytes (bs.getD 2 0) (bs.getD 3 0) (bs.getD 4 0) (bs.getD 5 0)
          mac := bs.drop 6 }
  else
    .error .malformed_frame

/-! ## Device identifiers (common.h, lines 21-29) -/

/-- The enumeration `DeviceID : uint8_t`. -/
inductive DeviceID where
  | ID_LITE1
  | ID_LITE2
  | ID_LITE3
  | ID_LITE5
  | ID_LITE8
  | ID_STICK1
  | ID_LILYGO_CENTRAL
  deriving DecidableEq, Repr

/-- The numeric value of each `DeviceID` enumerator. -/
def DeviceID.val : DeviceID → Nat
  | .ID_LITE1 => 3
  | .ID_LITE2 => 4
  | .ID_LITE3 => 5
  | .ID_LITE5 => 7
  | .ID_LITE8 => 8
  | .ID_STICK1 => 9
  | .ID_LILYGO_CENTRAL => 99

/-- The enumerators of `DeviceID` in declaration order. -/
def DeviceID.all : List DeviceID :=
  [.ID_LITE1, .ID_LITE2, .ID_LITE3, .ID_LITE5, .ID_LITE8, .ID_STICK1, .ID_LILYGO_CENTRAL]

/-! ## Event codes (common.h, lines 32-42) -/

/-- The enumeration `EventType : uint8_t`. -/
inductive EventType where
  | EVT_ZAPOWIEDZ_1
  | EVT_ZAPOWIEDZ_2
  | EVT_ZAPOWIEDZ_3
  | EVT_CZUWAJ
  | EVT_CICHO
  | EVT_SERWIS
  | EVT_STOP
  | EVT_STATUS_REQ
  | EVT_STATUS_RESP
  deriving DecidableEq, Repr

/-- The numeric value of each `EventType` enumerator. -/
def EventType.val : EventType → Nat
  | .EVT_ZAPOWIEDZ_1 => 1
  | .EVT_ZAPOWIEDZ_2 => 2
  | .EVT_ZAPOWIEDZ_3 => 3
  | .EVT_CZUWAJ => 30
  | .EVT_CICHO => 31
  | .EVT_SERWIS => 32
  | .EVT_STOP => 33
  | .EVT_STATUS_REQ => 40
  | .EVT_STATUS_RESP => 41

/-- The enumerators of `EventType` in declaration order. -/
def EventType.all : List EventType :=
  [.EVT_ZAPOWIEDZ_1, .EVT_ZAPOWIEDZ_2, .EVT_ZAPOWIEDZ_3, .EVT_CZUWAJ, .EVT_CICHO,
   .EVT_SERWIS, .EVT_STOP, .EVT_STATUS_REQ, .EVT_STATUS_RESP]

/-- The enumerator whose value is the given code, if there is one. -/
def EventType.ofCode (code : Nat) : Option EventType :=
  EventType.all.find? (fun e => e.val == code)

/-- The families of event codes (spec, section 4.3). -/
inductive EventFamily where
  | announcement
  | control
  | status_request
  | status_response
  | unrecognized
  deriving DecidableEq, Repr

/-- Modelled from the spec: the family of each enumerator (section 3), which
`common.h` gives only through the names and comments of the enumerators:
three announcement levels, four control commands, the status pair. -/
def EventType.family : EventType → EventFamily
  | .EVT_ZAPOWIEDZ_1 => .announcement
  | .EVT_ZAPOWIEDZ_2 => .announcement
  | .EVT_ZAPOWIEDZ_3 => .announcement
  | .EVT_CZUWAJ => .control
  | .EVT_CICHO => .control
  | .EVT_SERWIS => .control
  | .EVT_STOP => .control
  | .EVT_STATUS_REQ => .status_request
  | .EVT_STATUS_RESP => .status_response

/-- Modelled from the spec: `Classify` of section 4.3, which is not a function
of `common.h`. A code that is the value of an `EventType` enumerator gets
that enumerator's family; any other code is classified as unrecognized. -/
def Classify (code : Nat) : EventFamily :=
  match EventType.ofCode code with
  | some e => e.family
  | none => .unrecognized

/-! ## Hardware addresses (common.h, lines 45-52) -/

def mac_lilygo_centrala : List Nat := [0xCC, 0x7B, 0x5C, 0x31, 0x01, 0x00]

def mac_lite1 : List Nat := [0x90, 0x15, 0x06, 0xFA, 0x7E, 0x48]
def mac_lite2 : List Nat := [0xF0, 0x24, 0xF9, 0xBC, 0x58, 0x24]
def mac_lite3 : List Nat := [0xF0, 0x24, 0xF9, 0xBA, 0xDC, 0x10]
def mac_lite5 : List Nat := [0xF0, 0x24, 0xF9, 0xBB, 0x43, 0xB8]
def mac_lite8 : List Nat := [0xF0, 0x24, 0xF9, 0xBB, 0x4E, 0xD0]
def mac_stick1 : List Nat := [0xF0, 0x24, 0xF9, 0x98, 0xAD, 0xA8]

/-! ## Identity selection (common.h, lines 57-92) -/

/-- The build selectors tested by the `#ifdef` chain, in the order of the
header. -/
inductive Selector where
  | THIS_IS_LITE1
  | THIS_IS_LITE2
  | THIS_IS_LITE3
  | THIS_IS_LITE5
  | THIS_IS_LITE8
  | THIS_IS_STICK1
  | THIS_IS_LILYGO_CENTRAL
  deriving DecidableEq, Repr

/-- The selectors in the order in which the header tests them. -/
def Selector.all : List Selector :=
  [.THIS_IS_LITE1, .THIS_IS_LITE2, .THIS_IS_LITE3, .THIS_IS_LITE5, .THIS_IS_LITE8,
   .THIS_IS_STICK1, .THIS_IS_LILYGO_CENTRAL]

/-- The macros the `#ifdef` chain defines. `MY_DEVICE_ID` expands to a
`DeviceID` enumerator and `MY_MAC` to one of the address constants; `none`
is an undefined macro. `redefined` counts the macro-redefinition diagnostics
issued so far. -/
structure MacroEnv where
  MY_DEVICE_ID : Option DeviceID
  MY_MAC : Option (List Nat)
  TINY_GSM_MODEM_SIM800 : Bool
  redefined : Nat
  deriving DecidableEq, Repr

/-- The macro state before the chain: none of the three macros is defined. -/
def MacroEnv.initial : MacroEnv :=
  { MY_DEVICE_ID := none, MY_MAC := none, TINY_GSM_MODEM_SIM800 := false, redefined := 0 }

/-- The `#define` lines that occur inside the `#ifdef` blocks. -/
inductive Directive where
  | define_MY_DEVICE_ID (v : DeviceID)
  | define_MY_MAC (v : List Nat)
  | define_TINY_GSM_MODEM_SIM800
  deriving DecidableEq, Repr

/-- One `#ifdef SELECTOR ... #endif` block. -/
structure IfdefBlock where
  selector : Selector
  body : List Directive
  deriving DecidableEq, Repr

/-- The seven blocks of lines 57-92, in order. The `#include` of the modem
library in the last block defines none of the three macros and is left
out. -/
def header_blocks : List IfdefBlock :=
  [ ⟨.THIS_IS_LITE1, [.define_MY_DEVICE_ID .ID_LITE1, .define_MY_MAC mac_lite1]⟩,
    ⟨.THIS_IS_LITE2, [.define_MY_DEVICE_ID .ID_LITE2, .define_MY_MAC mac_lite2]⟩,
    ⟨.THIS_IS_LITE3, [.define_MY_DEVICE_ID .ID_LITE3, .define_MY_MAC mac_lite3]⟩,
    ⟨.THIS_IS_LITE5, [.define_MY_DEVICE_ID .ID_LITE5, .define_MY_MAC mac_lite5]⟩,
    ⟨.THIS_IS_LITE8, [.define_MY_DEVICE_ID .ID_LITE8, .define_MY_MAC mac_lite8]⟩,
    ⟨.THIS_IS_STICK1, [.define_MY_DEVICE_ID .ID_STICK1, .define_MY_MAC mac_stick1]⟩,
    ⟨.THIS_IS_LILYGO_CENTRAL,
      [.define_MY_DEVICE_ID .ID_LILYGO_CENTRAL, .define_MY_MAC mac_lilygo_centrala,
       .define_TINY_GSM_MODEM_SIM800]⟩ ]

/-- The number of diagnostics a `#define` adds: one when the macro is already
defined with a different replacement, none otherwise. -/
def redefinition {α : Type} [DecidableEq α] (old : Option α) (v : α) : Nat :=
  match old with
  | some w => if w = v then 0 else 1
  | none => 0

/-- The effect of one `#define`. The header has no `#undef`, `#elif` or
`#error`: a macro that is already defined is given the new replacement, as
the GCC preprocessor of the ESP32 toolchain does, and the redefinition is
only counted as a diagnostic. -/
def Directive.run (env : MacroEnv) : Directive → MacroEnv
  | .define_MY_DEVICE_ID v =>
      { env with MY_DEVICE_ID := some v
                 redefined := env.redefined + redefinition env.MY_DEVICE_ID v }
  | .define_MY_MAC v =>
      { env with MY_MAC := some v
                 redefined := env.redefined + redefinition env.MY_MAC v }
  | .define_TINY_GSM_MODEM_SIM800 => { env with TINY_GSM_MODEM_SIM800 := true }

/-- The effect of one `#ifdef` block: its body when the selector is defined,
nothing otherwise. -/
def IfdefBlock.run (defd : Selector → Bool) (env : MacroEnv) (b : IfdefBlock) : MacroEnv :=
  if defd b.selector then b.body.foldl Directive.run env else env

/-- The macro state after lines 57-92, given which selectors the build
defines. -/
def preprocess (defd : Selector → Bool) : MacroEnv :=
  header_blocks.foldl (IfdefBlock.run defd) MacroEnv.initial

/-- The identity a build resolves to: the numeric value of `MY_DEVICE_ID` and
the bytes of `MY_MAC`, when both macros are defined. -/
def resolved_identity (env : MacroEnv) : Option (Nat × List Nat) :=
  match env.MY_DEVICE_ID, env.MY_MAC with
  | some d, some m => some (d.val, m)
  | _, _ => none

/-- The number of selectors a build defines. -/
def active_count (defd : Selector → Bool) : Nat :=
  (Selector.all.filter defd).length

/-- The defined selector that the header tests last, if any is defined. -/
def last_active (defd : Selector → Bool) : Option Selector :=
  (Selector.all.filter defd).getLast?

/-- The build that defines exactly one selector. -/
def only_selector (sel : Selector) : Selector → Bool :=
  fun s => decide (s = sel)

/-- The registry row of the role each selector names: the role's device ID
(lines 21-29) and the role's hardware address (lines 45-52), written out as
numbers. This table states what each role's own identity is; `preprocess`
is compared with it. -/
def Selector.registered : Selector → Nat × List Nat
  | .THIS_IS_LITE1 => (3, [0x90, 0x15, 0x06, 0xFA, 0x7E, 0x48])
  | .THIS_IS_LITE2 => (4, [0xF0, 0x24, 0xF9, 0xBC, 0x58, 0x24])
  | .THIS_IS_LITE3 => (5, [0xF0, 0x24, 0xF9, 0xBA, 0xDC, 0x10])
  | .THIS_IS_LITE5 => (7, [0xF0, 0x24, 0xF9, 0xBB, 0x43, 0xB8])
  | .THIS_IS_LITE8 => (8, [0xF0, 0x24, 0xF9, 0xBB, 0x4E, 0xD0])
  | .THIS_IS_STICK1 => (9, [0xF0, 0x24, 0xF9, 0x98, 0xAD, 0xA8])
  | .THIS_IS_LILYGO_CENTRAL => (99, [0xCC, 0x7B, 0x5C, 0x31, 0x01, 0x00])

/-- The selector function that reads the seven definedness bits. -/
def bits_selector (b1 b2 b3 b5 b8 bs bc : Bool) : Selector → Bool :=
  fun s =>
    match s with
    | .THIS_IS_LITE1 => b1
    | .THIS_IS_LITE2 => b2
    | .THIS_IS_LITE3 => b3
    | .THIS_IS_LITE5 => b5
    | .THIS_IS_LITE8 => b8
    | .THIS_IS_STICK1 => bs
    | .THIS_IS_LILYGO_CENTRAL => bc

/-! ## Packet codec: layout, size and round trip -/

theorem u32_roundtrip (v : Nat) (h : v < 2 ^ 32) :
    u32_of_bytes (v % 256) (v / 256 % 256) (v / 65536 % 256) (v / 16777216 % 256) = v := by
  unfold u32_of_bytes
  omega

/-- C1: for every representable message, decoding the 12-byte packed encoding
succeeds and returns the same four fields. -/
theorem decode_encode_roundtrip (m : struct_message) (h : m.wf) :
    Decode (Encode m) = .ok m := by
  obtain ⟨_, _, hinfo, hlen, _⟩ := h
  have hl : (Encode m).length = 12 := by simp [Encode, u32_bytes, hlen]
  unfold Decode
  rw [if_pos hl]
  cases m with
  | mk id typ info mac =>
    simp only [Encode, u32_bytes] at *
    simp [u32_roundtrip info hinfo]

/-- Witness of C1: the stop message of the stick (sender 9, event 33, info
123456, the stick's address) is representable and survives the round trip. -/
theorem decode_encode_roundtrip_witness :
    struct_message.wf ⟨9, 33, 123456, mac_stick1⟩ ∧
      Decode (Encode ⟨9, 33, 123456, mac_stick1⟩) = .ok ⟨9, 33, 123456, mac_stick1⟩ :=
  ⟨by decide, decode_encode_roundtrip ⟨9, 33, 123456, mac_stick1⟩ (by decide)⟩

/-- C2: the packed encoding of every representable message is exactly 12
bytes long (1 + 1 + 4 + 6), and every emitted value is a byte. -/
theorem encode_length (m : struct_message) (h : m.wf) :
    (Encode m).length = 12 ∧ (Encode m).length = 1 + 1 + 4 + 6 ∧ ∀ b ∈ Encode m, b < 256 := by
  obtain ⟨hid, htyp, _, hlen, hmac⟩ := h
  refine ⟨by simp [Encode, u32_bytes, hlen], by simp [Encode, u32_bytes, hlen], ?_⟩
  intro b hb
  simp only [Encode, u32_bytes, List.mem_append, List.mem_cons, List.mem_singleton,
    List.not_mem_nil, or_false] at hb
  rcases hb with ((h1 | h1) | (h1 | h1 | h1 | h1)) | h1
  · omega
  · omega
  · omega
  · omega
  · omega
  · omega
  · exact hmac b h1

/-- Witness of C2: the message with every field at its maximum is
representable and its encoding has 12 bytes; so has the all-zero message. -/
theorem encode_length_witness :
    struct_message.wf ⟨255, 255, 2 ^ 32 - 1, [255, 255, 255, 255, 255, 255]⟩ ∧
      (Encode ⟨255, 255, 2 ^ 32 - 1, [255, 255, 255, 255, 255, 255]⟩).length = 12 ∧
      struct_message.wf ⟨0, 0, 0, [0, 0, 0, 0, 0, 0]⟩ ∧
      (Encode ⟨0, 0, 0, [0, 0, 0, 0, 0, 0]⟩).length = 12 :=
  ⟨by decide,
   (encode_length ⟨255, 255, 2 ^ 32 - 1, [255, 255, 255, 255, 255, 255]⟩ (by decide)).1,
   by decide,
   (encode_length ⟨0, 0, 0, [0, 0, 0, 0, 0, 0]⟩ (by decide)).1⟩

/-- C3: the encoding of every representable message places the sender id at
byte 0, the event type at byte 1, the 32-bit info value at bytes 2..5 least
significant byte first (byte 2 is info mod 256, byte 5 is info div 2^24), the
six address bytes in order at bytes 6..11, and nothing after byte 11. -/
theorem encode_layout (m : struct_message) (h : m.wf) :
    (Encode m)[0]? = some m.id ∧
    (Encode m)[1]? = some m.typ_zdarzenia ∧
    (Encode m)[2]? = some (m.info % 256) ∧
    (Encode m)[3]? = some (m.info / 2 ^ 8 % 256) ∧
    (Encode m)[4]? = some (m.info / 2 ^ 16 % 256) ∧
    (Encode m)[5]? = some (m.info / 2 ^ 24) ∧
    (∀ i, i < 6 → (Encode m)[6 + i]? = m.mac[i]? ∧ m.mac[i]?.isSome = true) ∧
    (∀ i, 12 ≤ i → (Encode m)[i]? = none) := by
  obtain ⟨_, _, hinfo, hlen, _⟩ := h
  have h5 : m.info / 16777216 % 256 = m.info / 2 ^ 24 := by
    norm_num
    omega
  refine ⟨by simp [Encode, u32_bytes], by simp [Encode, u32_bytes], by simp [Encode, u32_bytes],
    by simp [Encode, u32_bytes], by simp [Encode, u32_bytes], ?_, ?_, ?_⟩
  · simp only [Encode, u32_bytes]
    simp [h5]
  · intro i hi
    constructor
    · have e : Encode m = ([m.id, m.typ_zdarzenia] ++ u32_bytes m.info) ++ m.mac := rfl
      have l6 : ([m.id, m.typ_zdarzenia] ++ u32_bytes m.info).length = 6 := by
        simp [u32_bytes]
      rw [e, List.getElem?_append_right (by omega), l6]
      congr 1
      omega
    · simp only [Option.isSome_iff_exists]
      exact ⟨m.mac[i], List.getElem?_eq_getElem (by omega)⟩
  · intro i hi
    apply List.getElem?_eq_none
    simp [Encode, u32_bytes, hlen]
    omega

/-- Witness of C3: the layout of the stop message of the stick. -/
theorem encode_layout_witness :
    struct_message.wf ⟨9, 33, 123456, mac_stick1⟩ ∧
      (Encode ⟨9, 33, 123456, mac_stick1⟩)[5]? = some (123456 / 2 ^ 24) ∧
      Encode ⟨9, 33, 123456, mac_stick1⟩
        = [9, 33, 0x40, 0xE2, 0x01, 0x00, 0xF0, 0x24, 0xF9, 0x98, 0xAD, 0xA8] :=
  ⟨by decide, (encode_layout ⟨9, 33, 123456, mac_stick1⟩ (by decide)).2.2.2.2.2.1, by decide⟩

/-- C10: decoding any byte sequence whose length is not 12 fails with the
malformed-frame condition; no message is returned. -/
theorem decode_rejects_wrong_length (bs : List Nat) (h : bs.length ≠ 12) :
    Decode bs = .error .malformed_frame ∧ ∀ m, Decode bs ≠ .ok m := by
  have e : Decode bs = .error .malformed_frame := by
    unfold Decode
    rw [if_neg h]
  refine ⟨e, ?_⟩
  intro m hm
  rw [e] at hm
  cases hm

/-- Witness of C10: an 11-byte frame (one byte short) is refused. -/
theorem decode_rejects_wrong_length_witness :
    [9, 33, 0x40, 0xE2, 0x01, 0x00, 0xF0, 0x24, 0xF9, 0x98, 0xAD].length ≠ 12 ∧
      Decode [9, 33, 0x40, 0xE2, 0x01, 0x00, 0xF0, 0x24, 0xF9, 0x98, 0xAD]
        = .error .malformed_frame :=
  ⟨by decide,
   (decode_rejects_wrong_length [9, 33, 0x40, 0xE2, 0x01, 0x00, 0xF0, 0x24, 0xF9, 0x98, 0xAD]
      (by decide)).1⟩

/-! ## Registry: identifiers, event codes, addresses -/

/-- C4: the seven `DeviceID` enumerators have pairwise distinct numeric
values (3, 4, 5, 7, 8, 9, 99), each within the 8-bit range. -/
theorem device_ids_unique :
    Function.Injective DeviceID.val ∧
    (∀ d : DeviceID, d.val < 256) ∧
    (∀ d : DeviceID, d ∈ DeviceID.all) ∧
    DeviceID.all.map DeviceID.val = [3, 4, 5, 7, 8, 9, 99] ∧
    (DeviceID.all.map DeviceID.val).Nodup := by
  refine ⟨?_, ?_, ?_, by decide, by decide⟩
  · intro a b hab
    cases a <;> cases b <;> first | rfl | (exact absurd hab (by decide))
  · intro d
    cases d <;> decide
  · intro d
    cases d <;> decide

/-- C5: the nine `EventType` enumerators have pairwise distinct 8-bit values
(1, 2, 3, 30, 31, 32, 33, 40, 41), so two enumerators of different families
never share a code, and `EVT_STOP` = 33 differs from every other code, the
status pair 40 and 41 included. -/
theorem event_codes_unique :
    Function.Injective EventType.val ∧
    (∀ e : EventType, e.val < 256) ∧
    (∀ e : EventType, e ∈ EventType.all) ∧
    EventType.all.map EventType.val = [1, 2, 3, 30, 31, 32, 33, 40, 41] ∧
    (EventType.all.map EventType.val).Nodup ∧
    (∀ e₁ e₂ : EventType, e₁.family ≠ e₂.family → e₁.val ≠ e₂.val) ∧
    EventType.EVT_STOP.val = 33 ∧
    (∀ e : EventType, e ≠ .EVT_STOP → e.val ≠ EventType.EVT_STOP.val) ∧
    EventType.EVT_STATUS_REQ.val = 40 ∧ EventType.EVT_STATUS_RESP.val = 41 := by
  have inj : Function.Injective EventType.val := by
    intro a b hab
    cases a <;> cases b <;> first | rfl | (exact absurd hab (by decide))
  refine ⟨inj, ?_, ?_, by decide, by decide, ?_, rfl, ?_, rfl, rfl⟩
  · intro e
    cases e <;> decide
  · intro e
    cases e <;> decide
  · intro e₁ e₂ hf hv
    exact hf (congrArg EventType.family (inj hv))
  · intro e he hv
    exact he (inj hv)

/-- C6: each of the seven registered hardware addresses is exactly six bytes
long, and the seven addresses are pairwise distinct. -/
theorem mac_addresses_distinct :
    (∀ a ∈ [mac_lilygo_centrala, mac_lite1, mac_lite2, mac_lite3, mac_lite5, mac_lite8,
        mac_stick1], a.length = 6 ∧ ∀ b ∈ a, b < 256) ∧
    List.Pairwise (fun a b => a ≠ b)
      [mac_lilygo_centrala, mac_lite1, mac_lite2, mac_lite3, mac_lite5, mac_lite8,
        mac_stick1] := by
  constructor
  · decide
  · decide

/-- C9: classification is a total function of the code; 30 and 33 are
control codes, 41 is the status response, 200 is the value of no enumerator
and is unrecognized, every enumerator value gets its enumerator's family, and
every code that is the value of no enumerator is unrecognized. -/
theorem classify_codes :
    Classify 30 = .control ∧ EventType.ofCode 30 = some .EVT_CZUWAJ ∧
    Classify 33 = .control ∧ EventType.ofCode 33 = some .EVT_STOP ∧
    Classify 41 = .status_response ∧ EventType.ofCode 41 = some .EVT_STATUS_RESP ∧
    Classify 200 = .unrecognized ∧ (∀ e : EventType, e.val ≠ 200) ∧
    (∀ e : EventType, Classify e.val = e.family ∧ Classify e.val ≠ .unrecognized) ∧
    (∀ code : Nat, (∀ e : EventType, e.val ≠ code) → Classify code = .unrecognized) := by
  refine ⟨by decide, by decide, by decide, by decide, by decide, by decide, by decide, ?_, ?_, ?_⟩
  · intro e
    cases e <;> decide
  · intro e
    cases e <;> decide
  · intro code hcode
    have hnone : EventType.ofCode code = none := by
      unfold EventType.ofCode
      rw [List.find?_eq_none]
      intro e _
      simpa using hcode e
    simp [Classify, hnone]

/-! ## Identity selection -/

theorem only_selector_of_iff (defd : Selector → Bool) (sel : Selector)
    (h : ∀ s, defd s = true ↔ s = sel) : defd = only_selector sel := by
  funext s
  unfold only_selector
  by_cases hs : s = sel
  · simp [hs, (h sel).2 rfl]
  · have : defd s ≠ true := fun c => hs ((h s).1 c)
    simp [hs, this]

theorem selector_eq_bits (defd : Selector → Bool) :
    defd = bits_selector (defd .THIS_IS_LITE1) (defd .THIS_IS_LITE2) (defd .THIS_IS_LITE3)
        (defd .THIS_IS_LITE5) (defd .THIS_IS_LITE8) (defd .THIS_IS_STICK1)
        (defd .THIS_IS_LILYGO_CENTRAL) := by
  funext s
  cases s <;> rfl

theorem resolve_bits (b1 b2 b3 b5 b8 bs bc : Bool) :
    (active_count (bits_selector b1 b2 b3 b5 b8 bs bc) = 0 →
      preprocess (bits_selector b1 b2 b3 b5 b8 bs bc) = MacroEnv.initial) ∧
    resolved_identity (preprocess (bits_selector b1 b2 b3 b5 b8 bs bc))
      = (last_active (bits_selector b1 b2 b3 b5 b8 bs bc)).map Selector.registered ∧
    (preprocess (bits_selector b1 b2 b3 b5 b8 bs bc)).redefined
      = 2 * (active_count (bits_selector b1 b2 b3 b5 b8 bs bc) - 1) := by
  cases b1 <;> cases b2 <;> cases b3 <;> cases b5 <;> cases b8 <;> cases bs <;> cases bc <;>
    decide

/-- C7: when exactly one build selector is defined, the header resolves
`MY_DEVICE_ID` and `MY_MAC` to the device ID and the hardware address of the
role that selector names, without any redefinition. -/
theorem resolve_single_selector (defd : Selector → Bool) (sel : Selector)
    (h : ∀ s, defd s = true ↔ s = sel) :
    resolved_identity (preprocess defd) = some sel.registered ∧
      (preprocess defd).redefined = 0 := by
  rw [only_selector_of_iff defd sel h]
  cases sel <;> exact ⟨by decide, by decide⟩

/-- Witness of C7: with `THIS_IS_STICK1` alone the identity is ID 9 with
address F0:24:F9:98:AD:A8. -/
theorem resolve_single_selector_witness :
    (∀ s, only_selector .THIS_IS_STICK1 s = true ↔ s = .THIS_IS_STICK1) ∧
      resolved_identity (preprocess (only_selector .THIS_IS_STICK1))
        = some (9, [0xF0, 0x24, 0xF9, 0x98, 0xAD, 0xA8]) :=
  ⟨by intro s; simp [only_selector],
   (resolve_single_selector (only_selector .THIS_IS_STICK1) .THIS_IS_STICK1
      (by intro s; simp [only_selector])).1⟩

/-- Counterexample to C8: with `THIS_IS_LITE1` and `THIS_IS_LITE2` both
defined, the header does not refuse; it resolves to the identity of
`THIS_IS_LITE2`, one of the two active selectors. -/
theorem resolve_two_selectors_counterexample :
    active_count (fun s => s = .THIS_IS_LITE1 ∨ s = .THIS_IS_LITE2) = 2 ∧
      resolved_identity (preprocess (fun s => s = .THIS_IS_LITE1 ∨ s = .THIS_IS_LITE2))
        = some (4, [0xF0, 0x24, 0xF9, 0xBC, 0x58, 0x24]) ∧
      ¬ (∀ defd : Selector → Bool, active_count defd ≠ 1 →
          resolved_identity (preprocess defd) = none) := by
  refine ⟨by decide, by decide, ?_⟩
  intro hall
  have := hall (fun s => s = .THIS_IS_LITE1 ∨ s = .THIS_IS_LITE2) (by decide)
  revert this
  decide

/-- C8, amended: when no selector is defined the header defines neither
`MY_DEVICE_ID` nor `MY_MAC`, so no identity and no default is resolved; when
two or more are defined the header does not refuse: it resolves to the
identity of the defined selector whose block comes last in the header, and
the overridden definitions are only counted as redefinitions. -/
theorem resolve_not_exactly_one (defd : Selector → Bool) (h : active_count defd ≠ 1) :
    (active_count defd = 0 ∧ preprocess defd = MacroEnv.initial ∧
      resolved_identity (preprocess defd) = none) ∨
    (2 ≤ active_count defd ∧
      ∃ s, last_active defd = some s ∧ defd s = true ∧
        resolved_identity (preprocess defd) = some s.registered ∧
        0 < (preprocess defd).redefined) := by
  have hb := resolve_bits (defd .THIS_IS_LITE1) (defd .THIS_IS_LITE2) (defd .THIS_IS_LITE3)
    (defd .THIS_IS_LITE5) (defd .THIS_IS_LITE8) (defd .THIS_IS_STICK1)
    (defd .THIS_IS_LILYGO_CENTRAL)
  rw [← selector_eq_bits defd] at hb
  obtain ⟨h0, hres, hred⟩ := hb
  by_cases hz : active_count defd = 0
  · left
    have e := h0 hz
    refine ⟨hz, e, ?_⟩
    rw [e]
    rfl
  · right
    have h2 : 2 ≤ active_count defd := by omega
    have hne : Selector.all.filter defd ≠ [] := by
      intro hnil
      unfold active_count at h2
      rw [hnil] at h2
      simp at h2
    have hlast : last_active defd = some ((Selector.all.filter defd).getLast hne) :=
      List.getLast?_eq_getLast _ hne
    refine ⟨h2, (Selector.all.filter defd).getLast hne, hlast, ?_, ?_, ?_⟩
    · have hm := List.getLast_mem hne
      exact (List.mem_filter.1 hm).2
    · rw [hres, hlast]
      rfl
    · rw [hred]
      omega

/-- Witness of C8, amended: `THIS_IS_LITE8` and `THIS_IS_STICK1` defined
together are not exactly one selector, and the stick, tested last, is the
identity resolved. -/
theorem resolve_not_exactly_one_witness :
    active_count (fun s => s = .THIS_IS_STICK1 ∨ s = .THIS_IS_LITE8) ≠ 1 ∧
      ((active_count (fun s => s = .THIS_IS_STICK1 ∨ s = .THIS_IS_LITE8) = 0 ∧
          preprocess (fun s => s = .THIS_IS_STICK1 ∨ s = .THIS_IS_LITE8) = MacroEnv.initial ∧
          resolved_identity (preprocess (fun s => s = .THIS_IS_STICK1 ∨ s = .THIS_IS_LITE8))
            = none) ∨
        (2 ≤ active_count (fun s => s = .THIS_IS_STICK1 ∨ s = .THIS_IS_LITE8) ∧
          ∃ s, last_active (fun s => s = .THIS_IS_STICK1 ∨ s = .THIS_IS_LITE8) = some s ∧
            (fun s => decide (s = .THIS_IS_STICK1 ∨ s = .THIS_IS_LITE8)) s = true ∧
            resolved_identity (preprocess (fun s => s = .THIS_IS_STICK1 ∨ s = .THIS_IS_LITE8))
              = some s.registered ∧
            0 < (preprocess (fun s => s = .THIS_IS_STICK1 ∨ s = .THIS_IS_LITE8)).redefined)) ∧
      resolved_identity (preprocess (fun s => s = .THIS_IS_STICK1 ∨ s = .THIS_IS_LITE8))
        = some (9, [0xF0, 0x24, 0xF9, 0x98, 0xAD, 0xA8]) :=
  ⟨by decide,
   resolve_not_exactly_one (fun s => s = .THIS_IS_STICK1 ∨ s = .THIS_IS_LITE8) (by decide),
   by decide⟩

/-! ## Modem capability flag and injectivity of the binding -/

theorem modem_flag_bits (b1 b2 b3 b5 b8 bs bc : Bool) :
    (preprocess (bits_selector b1 b2 b3 b5 b8 bs bc)).TINY_GSM_MODEM_SIM800 = bc := by
  cases b1 <;> cases b2 <;> cases b3 <;> cases b5 <;> cases b8 <;> cases bs <;> cases bc <;>
    decide

/-- C11: the header defines `TINY_GSM_MODEM_SIM800` if and only if the
coordinator selector `THIS_IS_LILYGO_CENTRAL` is defined: the coordinator
selector always enables the flag, whatever else is defined, and no set of
non-coordinator selectors enables it. -/
theorem modem_flag_iff_central (defd : Selector → Bool) :
    ((preprocess defd).TINY_GSM_MODEM_SIM800 = true ↔ defd .THIS_IS_LILYGO_CENTRAL = true) ∧
    (preprocess defd).TINY_GSM_MODEM_SIM800 = defd .THIS_IS_LILYGO_CENTRAL ∧
    MacroEnv.initial.TINY_GSM_MODEM_SIM800 = false := by
  have hb := modem_flag_bits (defd .THIS_IS_LITE1) (defd .THIS_IS_LITE2) (defd .THIS_IS_LITE3)
    (defd .THIS_IS_LITE5) (defd .THIS_IS_LITE8) (defd .THIS_IS_STICK1)
    (defd .THIS_IS_LILYGO_CENTRAL)
  rw [← selector_eq_bits defd] at hb
  exact ⟨by rw [hb], hb, rfl⟩

/-- C12: the identity binding is injective: two different selectors, each
defined alone, resolve to different device IDs and to different hardware
addresses, and every `DeviceID` enumerator is the resolved `MY_DEVICE_ID` of
exactly one selector defined alone. -/
theorem identity_binding_injective (defd₁ defd₂ : Selector → Bool) (s₁ s₂ : Selector)
    (h₁ : ∀ s, defd₁ s = true ↔ s = s₁) (h₂ : ∀ s, defd₂ s = true ↔ s = s₂)
    (hne : s₁ ≠ s₂) :
    (∃ d₁ d₂ : DeviceID, (preprocess defd₁).MY_DEVICE_ID = some d₁ ∧
      (preprocess defd₂).MY_DEVICE_ID = some d₂ ∧ d₁ ≠ d₂ ∧ d₁.val ≠ d₂.val) ∧
    (∃ m₁ m₂ : List Nat, (preprocess defd₁).MY_MAC = some m₁ ∧
      (preprocess defd₂).MY_MAC = some m₂ ∧ m₁ ≠ m₂) ∧
    (∀ d : DeviceID, ∃! s : Selector, (preprocess (only_selector s)).MY_DEVICE_ID = some d) := by
  rw [only_selector_of_iff defd₁ s₁ h₁, only_selector_of_iff defd₂ s₂ h₂]
  refine ⟨?_, ?_, ?_⟩
  · cases s₁ <;> cases s₂ <;>
      first
      | exact absurd rfl hne
      | exact ⟨_, _, rfl, rfl, by decide, by decide⟩
  · cases s₁ <;> cases s₂ <;>
      first
      | exact absurd rfl hne
      | exact ⟨_, _, rfl, rfl, by decide⟩
  · intro d
    cases d
    · refine ⟨.THIS_IS_LITE1, by decide, ?_⟩
      intro s hs
      cases s <;> first | rfl | exact absurd hs (by decide)
    · refine ⟨.THIS_IS_LITE2, by decide, ?_⟩
      intro s hs
      cases s <;> first | rfl | exact absurd hs (by decide)
    · refine ⟨.THIS_IS_LITE3, by decide, ?_⟩
      intro s hs
      cases s <;> first | rfl | exact absurd hs (by decide)
    · refine ⟨.THIS_IS_LITE5, by decide, ?_⟩
      intro s hs
      cases s <;> first | rfl | exact absurd hs (by decide)
    · refine ⟨.THIS_IS_LITE8, by decide, ?_⟩
      intro s hs
      cases s <;> first | rfl | exact absurd hs (by decide)
    · refine ⟨.THIS_IS_STICK1, by decide, ?_⟩
      intro s hs
      cases s <;> first | rfl | exact absurd hs (by decide)
    · refine ⟨.THIS_IS_LILYGO_CENTRAL, by decide, ?_⟩
      intro s hs
      cases s <;> first | rfl | exact absurd hs (by decide)

/-- Witness of C12: `THIS_IS_LITE8` alone and `THIS_IS_STICK1` alone resolve
to different IDs and different addresses. -/
theorem identity_binding_injective_witness :
    (∀ s, only_selector .THIS_IS_LITE8 s = true ↔ s = .THIS_IS_LITE8) ∧
      (∀ s, only_selector .THIS_IS_STICK1 s = true ↔ s = .THIS_IS_STICK1) ∧
      Selector.THIS_IS_LITE8 ≠ Selector.THIS_IS_STICK1 ∧
      (∃ m₁ m₂ : List Nat, (preprocess (only_selector .THIS_IS_LITE8)).MY_MAC = some m₁ ∧
        (preprocess (only_selector .THIS_IS_STICK1)).MY_MAC = some m₂ ∧ m₁ ≠ m₂) :=
  ⟨by intro s; simp [only_selector], by intro s; simp [only_selector], by decide,
   (identity_binding_injective (only_selector .THIS_IS_LITE8) (only_selector .THIS_IS_STICK1)
      .THIS_IS_LITE8 .THIS_IS_STICK1 (by intro s; simp [only_selector])
      (by intro s; simp [only_selector]) (by decide)).2.1⟩

end Alarm
